import Mathlib

/-
Verification of the prompt-engineering / DSPy event-classification pipeline
(`prompt_engineering.py` and `dspy_example.py`).

Embedding conventions:
- Python strings are modelled as `List Char`.
- Python `str.strip`, `str.lstrip`, `str.split()`, `str.splitlines` are
  modelled over their ASCII character classes (`str.split()`/`str.strip()`
  whitespace as the six ASCII whitespace characters; `splitlines` boundaries
  as `\n`, `\r\n`, `\r`), which covers every input the scripts handle.
- The OpenAI completion client is an external collaborator: each embedded
  function takes the reply content it would have received as an argument.
  `json.loads` is likewise an external library function, passed in as a
  `List Char → Option PyJson` parameter; the scripts only branch on whether
  its result is an array all of whose elements are strings.
- Fallible Python code (code that can raise) returns `Option`/`Except`.
- Python float division for the accuracy is modelled exactly over `ℚ`;
  `ZeroDivisionError` is the explicit `zeroDivision` error case.
-/

namespace PromptEngVsDspy

/-! ## Python string primitives -/

/-- ASCII whitespace, the character class of `str.split()` / `str.strip()`
with no arguments. -/
def isPySpace (c : Char) : Bool :=
  c = ' ' || c = '\t' || c = '\n' || c = '\r' || c = '\x0b' || c = '\x0c'

/-- `str.lstrip(chars)`: drop leading characters satisfying `p`. -/
def stripLeading (p : Char → Bool) (s : List Char) : List Char :=
  s.dropWhile p

/-- `str.rstrip(chars)`: drop trailing characters satisfying `p`. -/
def stripTrailing (p : Char → Bool) (s : List Char) : List Char :=
  (s.reverse.dropWhile p).reverse

/-- `str.strip(chars)`: drop leading and trailing characters satisfying `p`. -/
def pyStrip (p : Char → Bool) (s : List Char) : List Char :=
  stripTrailing p (stripLeading p s)

/-- Helper for `pyWords`: accumulates the current in-progress word reversed. -/
def pyWordsAux (cur : List Char) : List Char → List (List Char)
  | [] => if cur = [] then [] else [cur.reverse]
  | c :: rest =>
      if isPySpace c then
        if cur = [] then pyWordsAux [] rest else cur.reverse :: pyWordsAux [] rest
      else pyWordsAux (c :: cur) rest

/-- Python `str.split()` with no arguments: maximal runs of non-whitespace
characters, in order; empty pieces are never produced. -/
def pyWords (s : List Char) : List (List Char) :=
  pyWordsAux [] s

/-- Helper for `splitlines`: accumulates the current line reversed. -/
def splitlinesAux (cur : List Char) : List Char → List (List Char)
  | [] => if cur = [] then [] else [cur.reverse]
  | '\r' :: '\n' :: rest => cur.reverse :: splitlinesAux [] rest
  | '\r' :: rest => cur.reverse :: splitlinesAux [] rest
  | '\n' :: rest => cur.reverse :: splitlinesAux [] rest
  | c :: rest => splitlinesAux (c :: cur) rest

/-- Python `str.splitlines()` over the line boundaries `\n`, `\r\n`, `\r`;
a trailing boundary does not produce a final empty line. -/
def splitlines (s : List Char) : List (List Char) :=
  splitlinesAux [] s

/-- Python's substring test `needle in hay`. -/
def containsSub (needle : List Char) : List Char → Bool
  | [] => needle.isEmpty
  | c :: rest => needle.isPrefixOf (c :: rest) || containsSub needle rest

/-! ## The fixed category list (`EVENT_CATEGORIES`) -/

/-- The four fixed labels, in source order. -/
def EVENT_CATEGORIES : List (List Char) :=
  ["Wars".data, "Politics".data, "Science".data, "Culture".data]

/-! ## Dataset generator: `generate_events_for_category` reply parsing -/

/-- A decoded JSON value, the result type of the external `json.loads`. -/
inductive PyJson where
  | null
  | bool (b : Bool)
  | num (q : ℚ)
  | str (s : List Char)
  | arr (items : List PyJson)
  | obj (fields : List (List Char × PyJson))

/-- The primary path's validation (lines 68-74): the decoded value must be a
list, and every element a string; on success the list of strings, unchanged. -/
def allStrings : List PyJson → Option (List (List Char))
  | [] => some []
  | .str s :: rest => (allStrings rest).map (fun l => s :: l)
  | _ :: _ => none

/-- The whole primary parse path: `json.loads` succeeded, the value is a list,
and every element is a string; any other outcome (decode error, non-list,
non-string element) fails over to the fallback parser. -/
def primaryOk : Option PyJson → Option (List (List Char))
  | some (.arr items) => allStrings items
  | _ => none

/-- `line.strip()` then `line.lstrip("-*• ").strip()` (lines 81-83). -/
def cleanLine (line : List Char) : List Char :=
  pyStrip isPySpace
    (stripLeading (fun c => c = '-' || c = '*' || c = '•' || c = ' ')
      (pyStrip isPySpace line))

/-- The `startswith` tuple of line 86: structural punctuation and the two
quoted key-like tokens. -/
def badStarts : List (List Char) :=
  [['['], [']'], ['\x7b'], ['\x7d'],
   '\"' :: "number_".data, '\"' :: "category_".data]

/-- The `endswith` tuple of line 87: a trailing comma or double quote. -/
def badEnds : List (List Char) :=
  [[','], ['\"']]

/-- The keep condition of lines 85-87: longer than 10 characters, no bad
start, no bad end. -/
def keepLine (l : List Char) : Bool :=
  decide (10 < l.length)
    && !(badStarts.any (fun p => p.isPrefixOf l))
    && !(badEnds.any (fun p => p.isSuffixOf l))

/-- Lines 89-90: remove one layer of surrounding double quotes
(`line[1:-1]`) when the line both starts and ends with one. -/
def dequote (l : List Char) : List Char :=
  if ['\"'].isPrefixOf l && ['\"'].isSuffixOf l then (l.drop 1).dropLast else l

/-- The fallback parser of lines 78-94: split the raw output into lines,
clean each, keep the qualifying ones in order, dequoting kept lines. -/
def fallbackParse (raw_output : List Char) : List (List Char) :=
  (splitlines raw_output).filterMap (fun line =>
    let cleaned := cleanLine line
    if keepLine cleaned then some (dequote cleaned) else none)

/-- The parsing core of `generate_events_for_category` (lines 64-94): strip
the reply content, try the primary JSON path, otherwise fall back to the
line parser. `jsonLoads` is the external `json.loads`. The prompt-building
and API call (lines 38-62) only produce `content` and are external. -/
def generate_events_for_category
    (jsonLoads : List Char → Option PyJson) (content : List Char) :
    List (List Char) :=
  let raw_output := pyStrip isPySpace content
  match primaryOk (jsonLoads raw_output) with
  | some events_list => events_list
  | none => fallbackParse raw_output

/-! ## Classifiers -/

/-- The parsing core of `classify_with_baseline_prompt` (lines 181-185):
strip the reply, return its first whitespace-delimited token.
`raw_reply.split()[0]` raises `IndexError` when the reply has no token;
that failure is the `none` case. -/
def classify_with_baseline_prompt (content : List Char) : Option (List Char) :=
  (pyWords (pyStrip isPySpace content)).head?

/-- The parsing core of `classify_with_chain_of_thought` (lines 204-219):
first label (in `EVENT_CATEGORIES` order) occurring as a substring of the
stripped reply; else the last token stripped of `.,!?` when it is a valid
label; else the first category. -/
def classify_with_chain_of_thought (content : List Char) : List Char :=
  let raw_reply := pyStrip isPySpace content
  match EVENT_CATEGORIES.find? (fun label => containsSub label raw_reply) with
  | some label => label
  | none =>
      match (pyWords raw_reply).getLast? with
      | some w =>
          let last_word := pyStrip (fun c => c = '.' || c = ',' || c = '!' || c = '?') w
          if last_word ∈ EVENT_CATEGORIES then last_word
          else EVENT_CATEGORIES.headD []
      | none => EVENT_CATEGORIES.headD []

/-! ## Evaluators -/

/-- A labeled example: one record of `labeled_event_examples.json`. -/
structure LabeledExample where
  event : List Char
  category : List Char
  deriving DecidableEq

/-- What an evaluation run can raise: a classifier exception propagating
uncaught, or Python's `ZeroDivisionError` from `correct / total`. -/
inductive PyError (E : Type) where
  | classifier (e : E)
  | zeroDivision
  deriving DecidableEq

/-- The loop of `evaluate_classification_function` (lines 234-241): no
try/except, so the first classifier exception aborts the whole loop. -/
def evalLoop {E : Type} (classify_fn : List Char → Except E (List Char)) :
    List LabeledExample → Except E Nat
  | [] => .ok 0
  | example_ :: rest =>
      match classify_fn example_.event with
      | .error e => .error e
      | .ok predicted_label =>
          match evalLoop classify_fn rest with
          | .error e => .error e
          | .ok n =>
              .ok ((if predicted_label = example_.category then 1 else 0) + n)

/-- `evaluate_classification_function` (lines 224-251, `prompt_engineering.py`):
runs the loop, then computes `accuracy = correct_predictions / total_examples`,
which raises `ZeroDivisionError` when `examples` is empty. Timing and
printing are external effects with no bearing on the result. -/
def evaluate_classification_function {E : Type}
    (classify_fn : List Char → Except E (List Char))
    (examples : List LabeledExample) : Except (PyError E) ℚ :=
  match evalLoop classify_fn examples with
  | .error e => .error (.classifier e)
  | .ok correct_predictions =>
      if examples.length = 0 then .error .zeroDivision
      else .ok ((correct_predictions : ℚ) / (examples.length : ℚ))

/-- The loop of `evaluate_dspy_model` (lines 72-79, `dspy_example.py`): each
example is classified inside try/except; an exception is logged and the
example skipped, contributing nothing to the correct count. -/
def dspyLoop {E : Type} (model : List Char → Except E (List Char)) :
    List LabeledExample → Nat
  | [] => 0
  | example_ :: rest =>
      (match model example_.event with
       | .error _ => 0
       | .ok pred => if pred = example_.category then 1 else 0)
        + dspyLoop model rest

/-- `evaluate_dspy_model` (lines 66-89, `dspy_example.py`): `total` is the
full input length taken before the loop; the loop never aborts; then
`accuracy = correct / total`, raising `ZeroDivisionError` when empty. -/
def evaluate_dspy_model {E : Type}
    (model : List Char → Except E (List Char))
    (test_data : List LabeledExample) : Except (PyError E) ℚ :=
  let total := test_data.length
  let correct := dspyLoop model test_data
  if total = 0 then .error .zeroDivision
  else .ok ((correct : ℚ) / (total : ℚ))

/-! ## Dataset materialization -/

/-- Result of one materialization call: the returned training set, the file
contents afterwards, and how many generation calls were made. -/
structure TrainsetResult where
  trainset : List LabeledExample
  file : Option (List LabeledExample)
  genCalls : Nat
  deriving DecidableEq

/-- `generate_trainset` (lines 13-35, `dspy_example.py`), and equivalently
the materialization block of `prompt_engineering.py` lines 100-116: when the
file exists, load and return it with zero generation calls; when absent,
invoke the generator 15 times per category, tag each returned event with its
label, write the set to the file and return it. `gen cat i` is the external
LM's reply to generation call number `i` for category `cat`; the JSON
dump/load round-trip of the flat record list is modelled as the identity. -/
def generate_trainset (gen : List Char → Nat → List Char)
    (file : Option (List LabeledExample)) : TrainsetResult :=
  match file with
  | some data => { trainset := data, file := some data, genCalls := 0 }
  | none =>
      let trainset := (EVENT_CATEGORIES.map (fun cat =>
        (List.range 15).map (fun i => LabeledExample.mk (gen cat i) cat))).flatten
      { trainset := trainset, file := some trainset,
        genCalls := EVENT_CATEGORIES.length * 15 }

/-! ## Concrete collaborators used by witnesses and counterexamples -/

/-- A fragment of `json.loads`, fixed on the few concrete replies the
witnesses and counterexamples below use; it agrees with `json.loads` there. -/
def jsonLoadsSample (s : List Char) : Option PyJson :=
  if s = ("[\"The Treaty of Westphalia ended the Thirty Years War\"]").data then
    some (.arr [.str ("The Treaty of Westphalia ended the Thirty Years War").data])
  else if s = ("[\"\"]").data then
    some (.arr [.str []])
  else
    none

/-- A `json.loads` that fails on everything (every reply non-JSON). -/
def jsonLoadsNone (_ : List Char) : Option PyJson :=
  none

/-- A classifier stub that raises on the event text `"boom"` and predicts
`"Wars"` everywhere else. -/
def sampleClassifier (s : List Char) : Except Unit (List Char) :=
  if s = ("boom").data then .error () else .ok ("Wars").data

/-! ## Helper lemmas -/

/-- `containsSub` is Python's `in`: it decides the infix relation. -/
theorem containsSub_iff (needle hay : List Char) :
    containsSub needle hay = true ↔ needle <:+: hay := by
  induction hay with
  | nil =>
      simp [containsSub, List.isEmpty_iff, List.infix_nil]
  | cons c rest ih =>
      simp only [containsSub, Bool.or_eq_true, ih, List.infix_cons_iff,
        List.isPrefixOf_iff_prefix]

/-- Stripping characters from both ends yields an infix of the input. -/
theorem pyStrip_isInfix (p : Char → Bool) (s : List Char) :
    pyStrip p s <:+: s := by
  have h1 : stripLeading p s <:+ s := List.dropWhile_suffix p
  have h2 : stripTrailing p (stripLeading p s) <+: stripLeading p s := by
    have h := List.dropWhile_suffix (l := (stripLeading p s).reverse) p
    rw [← List.reverse_reverse (List.dropWhile p (stripLeading p s).reverse)] at h
    exact List.reverse_suffix.mp h
  exact h2.isInfix.trans h1.isInfix

/-- Every token `pyWordsAux` produces is an infix of the processed text
(with the pending reversed word prepended). -/
theorem pyWordsAux_isInfix (s : List Char) :
    ∀ cur w, w ∈ pyWordsAux cur s → w <:+: cur.reverse ++ s := by
  induction s with
  | nil =>
      intro cur w hw
      by_cases hc : cur = []
      · simp [pyWordsAux, hc] at hw
      · simp only [pyWordsAux, if_neg hc, List.mem_singleton] at hw
        simp [hw, List.infix_refl]
  | cons c rest ih =>
      intro cur w hw
      by_cases hs : isPySpace c = true
      · have htail : ∀ v, v ∈ pyWordsAux [] rest → v <:+: cur.reverse ++ c :: rest := by
          intro v hv
          have := ih [] v hv
          simp only [List.reverse_nil, List.nil_append] at this
          exact (List.infix_cons this).trans (List.suffix_append cur.reverse (c :: rest)).isInfix
        by_cases hc : cur = []
        · simp only [pyWordsAux, hs, if_true, if_pos hc] at hw
          exact htail w hw
        · simp only [pyWordsAux, hs, if_true, if_neg hc, List.mem_cons] at hw
          rcases hw with hw | hw
          · rw [hw]
            exact (List.prefix_append cur.reverse (c :: rest)).isInfix
          · exact htail w hw
      · simp only [pyWordsAux, hs, if_false, Bool.false_eq_true] at hw
        have := ih (c :: cur) w hw
        simpa [List.append_assoc] using this

/-- Every token of `pyWords s` is an infix of `s`. -/
theorem pyWords_isInfix (s w : List Char) (hw : w ∈ pyWords s) : w <:+: s := by
  have := pyWordsAux_isInfix s [] w hw
  simpa using this

/-- The last element of a list is a member. -/
theorem mem_of_getLast?_eq_some {α : Type} {l : List α} {a : α}
    (h : l.getLast? = some a) : a ∈ l := by
  induction l with
  | nil => simp at h
  | cons b bs ih =>
      cases bs with
      | nil => simp_all
      | cons c cs =>
          rw [List.getLast?_cons_cons] at h
          exact List.mem_cons_of_mem _ (ih h)

/-- A kept line is longer than 10 characters and ends with neither a comma
nor a double quote. -/
theorem keepLine_facts (l : List Char) (h : keepLine l = true) :
    10 < l.length
      ∧ ([','].isSuffixOf l) = false ∧ (['\"'].isSuffixOf l) = false := by
  simp only [keepLine, badEnds, Bool.and_eq_true, Bool.not_eq_true',
    List.any_cons, List.any_nil, Bool.or_eq_false_iff, decide_eq_true_eq] at h
  tauto

/-- A line that passes the keep filter does not end with a double quote, so
the surrounding-quote-removal branch never changes it. -/
theorem dequote_eq_of_keepLine (l : List Char) (h : keepLine l = true) :
    dequote l = l := by
  simp [dequote, (keepLine_facts l h).2.2]

/-- The fallback parser is exactly: clean every line, keep the qualifying
ones in their original order; the dequote step never fires. -/
theorem fallbackParse_eq_filter (raw : List Char) :
    fallbackParse raw = ((splitlines raw).map cleanLine).filter keepLine := by
  unfold fallbackParse
  induction splitlines raw with
  | nil => rfl
  | cons line rest ih =>
      simp only [List.filterMap_cons, List.map_cons, List.filter_cons]
      by_cases hk : keepLine (cleanLine line) = true
      · simp only [hk, if_true, dequote_eq_of_keepLine _ hk, ih]
      · rw [Bool.not_eq_true] at hk
        simp only [hk, Bool.false_eq_true, if_false, ih]

/-- On a mapped list of JSON strings, the all-strings extraction returns
exactly the underlying strings. -/
theorem allStrings_map_str (l : List (List Char)) :
    allStrings (l.map PyJson.str) = some l := by
  induction l with
  | nil => rfl
  | cons s rest ih => simp [allStrings, ih]

/-- The skip-and-continue loop distributes over list append. -/
theorem dspyLoop_append {E : Type} (model : List Char → Except E (List Char))
    (l₁ l₂ : List LabeledExample) :
    dspyLoop model (l₁ ++ l₂) = dspyLoop model l₁ + dspyLoop model l₂ := by
  induction l₁ with
  | nil => simp [dspyLoop]
  | cons ex rest ih => simp [dspyLoop, ih, Nat.add_assoc]

/-! ## Claim theorems -/

/-- C3, counterexample: the claim promises that a kept line which begins and
ends with a double quote comes back with one layer of quotes removed; but the
filter of lines 85-87 discards every line ending with a double quote, so the
canonical such line — longer than 10 characters, no bad start other than the
quote itself — is dropped entirely and the promised dequoted string is never
returned. -/
theorem claim3_counterexample :
    fallbackParse (("\"A famous battle happened in 1066\"").data)
        ≠ [("A famous battle happened in 1066").data]
      ∧ fallbackParse (("\"A famous battle happened in 1066\"").data) = [] := by
  exact ⟨by decide, by decide⟩

/-- C3 (amended): the fallback parser processes lines in original order,
cleaning each (whitespace strip, leading-bullet strip, whitespace strip) and
keeping exactly the lines that are longer than 10 characters, start with no
structural punctuation or quoted key-like token, and end with neither a comma
nor a quote; since no kept line ends with a quote, the surrounding-quote
removal branch never changes a kept line, and each returned string is the
cleaned line itself. -/
theorem claim3_theorem (raw : List Char) :
    fallbackParse raw = ((splitlines raw).map cleanLine).filter keepLine
      ∧ ∀ s ∈ fallbackParse raw,
          ([','].isSuffixOf s) = false ∧ (['\"'].isSuffixOf s) = false := by
  refine ⟨fallbackParse_eq_filter raw, ?_⟩
  intro s hs
  rw [fallbackParse_eq_filter] at hs
  exact (keepLine_facts s (List.of_mem_filter hs)).2

/-- C5: when `json.loads` decodes the stripped reply to an array all of whose
elements are strings, the primary path of `generate_events_for_category`
returns exactly that list of strings, unmodified and in order. -/
theorem claim5_theorem (jsonLoads : List Char → Option PyJson)
    (content : List Char) (strs : List (List Char))
    (h : jsonLoads (pyStrip isPySpace content)
          = some (.arr (strs.map PyJson.str))) :
    generate_events_for_category jsonLoads content = strs := by
  simp only [generate_events_for_category]
  rw [h]
  simp [primaryOk, allStrings_map_str]

/-- C5, witness: a concrete JSON-array-of-strings reply comes back as exactly
its one string. -/
theorem claim5_witness :
    generate_events_for_category jsonLoadsSample
        (("[\"The Treaty of Westphalia ended the Thirty Years War\"]").data)
      = [("The Treaty of Westphalia ended the Thirty Years War").data] :=
  claim5_theorem jsonLoadsSample _ _ rfl

/-- C6, counterexample: the reply `[""]` is a valid JSON array of strings, so
the primary path returns it unmodified and the result contains the empty
string — the returned value is not a sequence of non-empty strings. -/
theorem claim6_counterexample :
    generate_events_for_category jsonLoadsSample (("[\"\"]").data) = [[]]
      ∧ ([] : List Char) ∈
          generate_events_for_category jsonLoadsSample (("[\"\"]").data) := by
  refine ⟨rfl, ?_⟩
  exact (List.mem_singleton.mpr rfl : ([] : List Char) ∈ [[]])

/-- C6 (amended): the generator's reply handling is a total function — a
primary-path failure (decode error, non-list, or non-string element, i.e.
`primaryOk` yields `none`) degrades to the fallback line parser, every string
the fallback path returns is non-empty (indeed longer than 10 characters),
and fewer than the requested count may come back; only the primary path can
return an empty string, when one is an element of the decoded array. -/
theorem claim6_theorem (jsonLoads : List Char → Option PyJson)
    (content : List Char)
    (h : primaryOk (jsonLoads (pyStrip isPySpace content)) = none) :
    generate_events_for_category jsonLoads content
        = fallbackParse (pyStrip isPySpace content)
      ∧ ∀ s ∈ generate_events_for_category jsonLoads content,
          s ≠ [] ∧ 10 < s.length := by
  have heq : generate_events_for_category jsonLoads content
      = fallbackParse (pyStrip isPySpace content) := by
    simp only [generate_events_for_category]
    rw [h]
  refine ⟨heq, ?_⟩
  intro s hs
  rw [heq, fallbackParse_eq_filter] at hs
  have h10 := (keepLine_facts s (List.of_mem_filter hs)).1
  refine ⟨?_, h10⟩
  intro hnil
  rw [hnil] at h10
  simp at h10

/-- C6, witness: on a concrete non-JSON bullet reply the generator takes the
fallback path and returns only non-empty strings. -/
theorem claim6_witness :
    generate_events_for_category jsonLoadsNone
        (("- The Treaty of Versailles was signed in 1919").data)
        = fallbackParse (pyStrip isPySpace
            (("- The Treaty of Versailles was signed in 1919").data))
      ∧ ∀ s ∈ generate_events_for_category jsonLoadsNone
            (("- The Treaty of Versailles was signed in 1919").data),
          s ≠ [] ∧ 10 < s.length :=
  claim6_theorem jsonLoadsNone _ rfl

/-- C8, counterexample: on a whitespace-only reply `raw_reply.split()` is
empty and `split()[0]` raises `IndexError` (the `none` case): the classifier
does not return a token for every reply string. -/
theorem claim8_counterexample :
    classify_with_baseline_prompt (("   ").data) = none
      ∧ pyWords (pyStrip isPySpace (("   ").data)) = [] := by
  exact ⟨rfl, rfl⟩

/-- C8 (amended): for every reply with at least one whitespace-delimited
token, the direct-variant classifier returns the first token verbatim, with
no validation against the category set — nothing in the hypothesis restricts
the token to a valid label, and the witness returns an out-of-vocabulary
token as-is. -/
theorem claim8_theorem (content w : List Char) (ws : List (List Char))
    (h : pyWords (pyStrip isPySpace content) = w :: ws) :
    classify_with_baseline_prompt content = some w := by
  unfold classify_with_baseline_prompt
  rw [h]
  rfl

/-- C8, witness: the out-of-vocabulary first token `Banana` is returned
as-is. -/
theorem claim8_witness :
    classify_with_baseline_prompt (("Banana desserts").data)
        = some (("Banana").data)
      ∧ ("Banana").data ∉ EVENT_CATEGORIES :=
  ⟨claim8_theorem _ _ [("desserts").data] (by decide), by decide⟩

/-- C2, counterexample: the reply `Science then Wars` contains `Science` as a
substring, yet the reasoned-variant classifier returns `Wars`, because the
label loop of lines 207-209 checks the categories in list order and `Wars`
also occurs as a substring. -/
theorem claim2_counterexample :
    containsSub (("Science").data) (("Science then Wars").data) = true
      ∧ classify_with_chain_of_thought (("Science then Wars").data)
          = ("Wars").data
      ∧ ("Wars").data ≠ ("Science").data := by
  exact ⟨by decide, by decide, by decide⟩

/-- C2 (amended): the reasoned-variant classifier returns the first label in
category-list order occurring as a substring of the (whitespace-stripped)
reply; so a reply that contains `Science` and contains neither `Wars` nor
`Politics` yields `Science`, even when the reply's last token is the
remaining valid label `Culture`. -/
theorem claim2_theorem (reply : List Char)
    (hS : containsSub (("Science").data) (pyStrip isPySpace reply) = true)
    (hW : containsSub (("Wars").data) (pyStrip isPySpace reply) = false)
    (hP : containsSub (("Politics").data) (pyStrip isPySpace reply) = false) :
    classify_with_chain_of_thought reply = ("Science").data := by
  have hfind : EVENT_CATEGORIES.find?
      (fun label => containsSub label (pyStrip isPySpace reply))
        = some (("Science").data) := by
    rw [show EVENT_CATEGORIES
        = [("Wars").data, ("Politics").data, ("Science").data, ("Culture").data]
      from rfl]
    rw [List.find?_cons_of_neg _ (by simp [hW]),
      List.find?_cons_of_neg _ (by simp [hP]),
      List.find?_cons_of_pos _ (by simp [hS])]
  simp only [classify_with_chain_of_thought, hfind]

/-- C2, witness: a reply containing `Science` whose last token is the valid
label `Culture` still classifies as `Science`. -/
theorem claim2_witness :
    classify_with_chain_of_thought
        (("The answer is clearly Science, not Culture").data)
      = ("Science").data :=
  claim2_theorem _ (by decide) (by decide) (by decide)

/-- C7: when no valid label occurs as a substring of the reply and the last
whitespace-delimited token, stripped of trailing `.,!?`, is not a valid label
either, the reasoned-variant classifier deterministically returns the first
category list entry, `Wars` (lines 211-219). -/
theorem claim7_theorem (reply : List Char)
    (h1 : ∀ label ∈ EVENT_CATEGORIES, containsSub label reply = false)
    (_h2 : stripTrailing (fun c => c = '.' || c = ',' || c = '!' || c = '?')
            (((pyWords reply).getLast?).getD []) ∉ EVENT_CATEGORIES) :
    classify_with_chain_of_thought reply = ("Wars").data := by
  have hraw : pyStrip isPySpace reply <:+: reply := pyStrip_isInfix _ _
  have hnosub : ∀ label ∈ EVENT_CATEGORIES,
      ¬ label <:+: pyStrip isPySpace reply := by
    intro label hmem hc
    have : containsSub label reply = true :=
      (containsSub_iff _ _).mpr (hc.trans hraw)
    rw [h1 label hmem] at this
    exact Bool.false_ne_true this
  have hfind : EVENT_CATEGORIES.find?
      (fun label => containsSub label (pyStrip isPySpace reply)) = none := by
    rw [List.find?_eq_none]
    intro label hmem hc
    exact hnosub label hmem ((containsSub_iff _ _).mp hc)
  simp only [classify_with_chain_of_thought, hfind]
  split
  case _ w hlast =>
    have hw : w ∈ pyWords (pyStrip isPySpace reply) :=
      mem_of_getLast?_eq_some hlast
    have hwr : w <:+: pyStrip isPySpace reply := pyWords_isInfix _ _ hw
    have hlw : pyStrip (fun c => c = '.' || c = ',' || c = '!' || c = '?') w
        <:+: pyStrip isPySpace reply := (pyStrip_isInfix _ w).trans hwr
    have hnot : pyStrip (fun c => c = '.' || c = ',' || c = '!' || c = '?') w
        ∉ EVENT_CATEGORIES := fun hmem => hnosub _ hmem hlw
    rw [if_neg hnot]
    rfl
  case _ => rfl

/-- C7, witness: a reply with no valid label anywhere and last token `hmm.`
(stripping to `hmm`, not a label) yields the default first entry, `Wars`. -/
theorem claim7_witness :
    classify_with_chain_of_thought
        (("I am unable to tell, hmm.").data) = ("Wars").data :=
  claim7_theorem _ (by decide) (by decide)

/-- C10: every reply classifies, under the reasoned variant, to a member of
the fixed four-entry category list — the substring branch returns a list
entry, the last-token branch returns only a validated member, and the default
is the first entry; the direct variant carries no such guarantee: it returns
the out-of-vocabulary token `Banana` verbatim. -/
theorem claim10_theorem :
    (∀ reply : List Char,
        classify_with_chain_of_thought reply ∈ EVENT_CATEGORIES)
      ∧ classify_with_baseline_prompt (("Banana").data)
          = some (("Banana").data)
      ∧ ("Banana").data ∉ EVENT_CATEGORIES := by
  refine ⟨?_, by decide, by decide⟩
  intro reply
  simp only [classify_with_chain_of_thought]
  split
  case _ label hfind => exact List.mem_of_find?_eq_some hfind
  case _ hfind =>
    split
    case _ w hlast =>
      by_cases hmem :
        pyStrip (fun c => c = '.' || c = ',' || c = '!' || c = '?') w
          ∈ EVENT_CATEGORIES
      · rw [if_pos hmem]
        exact hmem
      · rw [if_neg hmem]
        decide
    case _ => decide

/-- C1, counterexample: `evaluate_classification_function` in
`prompt_engineering.py` has no try/except around the classify call, so a
classifier error on the first of two examples aborts the whole evaluation —
no example is skipped, the loop does not continue, and no accuracy is
reported at all. -/
theorem claim1_counterexample :
    evaluate_classification_function sampleClassifier
        [LabeledExample.mk (("boom").data) (("Wars").data),
         LabeledExample.mk (("Treaty signed").data) (("Wars").data)]
      = .error (.classifier ()) := rfl

/-- C1 (amended): only `evaluate_dspy_model` (`dspy_example.py`) catches
per-example classifier failures: a failing call is logged, skipped, and the
loop continues over the remaining examples, with the reported accuracy equal
to correct / N where N is the full example count including the skipped
failure; `evaluate_classification_function` (`prompt_engineering.py`)
propagates the first classifier error and aborts its run instead. -/
theorem claim1_theorem {E : Type} (model : List Char → Except E (List Char))
    (pre post : List LabeledExample) (ex : LabeledExample) (e : E)
    (h : model ex.event = .error e) :
    evaluate_dspy_model model (pre ++ ex :: post)
      = .ok (((dspyLoop model pre + dspyLoop model post : ℕ) : ℚ)
          / (((pre ++ ex :: post).length : ℕ) : ℚ)) := by
  have hskip : dspyLoop model (pre ++ ex :: post)
      = dspyLoop model pre + dspyLoop model post := by
    rw [dspyLoop_append]
    simp [dspyLoop, h]
  have hlen : (pre ++ ex :: post).length ≠ 0 := by simp
  simp only [evaluate_dspy_model]
  rw [if_neg hlen, hskip]

/-- C1, witness: three examples, the middle one failing — the run completes
and the denominator is the full count of three. -/
theorem claim1_witness :
    evaluate_dspy_model sampleClassifier
        ([LabeledExample.mk (("x").data) (("Wars").data)]
          ++ LabeledExample.mk (("boom").data) (("Politics").data)
            :: [LabeledExample.mk (("y").data) (("Culture").data)])
      = .ok (((dspyLoop sampleClassifier
              [LabeledExample.mk (("x").data) (("Wars").data)]
            + dspyLoop sampleClassifier
              [LabeledExample.mk (("y").data) (("Culture").data)] : ℕ) : ℚ)
          / ((([LabeledExample.mk (("x").data) (("Wars").data)]
              ++ LabeledExample.mk (("boom").data) (("Politics").data)
                :: [LabeledExample.mk (("y").data) (("Culture").data)]).length
              : ℕ) : ℚ)) :=
  claim1_theorem sampleClassifier _ _ _ () rfl

/-- C9: calling either evaluator with an empty example sequence reaches
`accuracy = correct / total` with `total = 0` and raises
`ZeroDivisionError`; a non-empty example list is the unstated precondition,
and under it neither evaluator can raise `ZeroDivisionError`. -/
theorem claim9_theorem {E : Type} (f : List Char → Except E (List Char))
    (examples : List LabeledExample) :
    (evaluate_classification_function f ([] : List LabeledExample)
          = .error .zeroDivision
        ∧ evaluate_dspy_model f ([] : List LabeledExample)
          = .error .zeroDivision)
      ∧ (examples ≠ [] →
          evaluate_classification_function f examples
              ≠ .error .zeroDivision
            ∧ evaluate_dspy_model f examples ≠ .error .zeroDivision) := by
  refine ⟨⟨rfl, rfl⟩, ?_⟩
  intro hne
  have hlen : examples.length ≠ 0 := by
    simpa [List.length_eq_zero] using hne
  constructor
  · simp only [evaluate_classification_function]
    split
    · simp
    · rw [if_neg hlen]
      simp
  · simp only [evaluate_dspy_model]
    rw [if_neg hlen]
    simp

/-- C4: dataset materialization is idempotent: with the file present, a call
returns exactly the stored content with zero generation calls; the file
after any call is present, so a second call returns the same training set as
the first and never invokes the generator; a call that makes any generation
call at all was a call on an absent file. -/
theorem claim4_theorem (gen : List Char → Nat → List Char)
    (file : Option (List LabeledExample)) :
    (∀ data, file = some data →
        generate_trainset gen file
          = TrainsetResult.mk data (some data) 0)
      ∧ (generate_trainset gen ((generate_trainset gen file).file)).trainset
          = (generate_trainset gen file).trainset
      ∧ (generate_trainset gen ((generate_trainset gen file).file)).genCalls
          = 0
      ∧ (0 < (generate_trainset gen file).genCalls → file = none) := by
  cases file with
  | some data =>
      refine ⟨?_, rfl, rfl, ?_⟩
      · intro d hd
        injection hd with hd
        rw [hd]
        rfl
      · intro hpos
        simp [generate_trainset] at hpos
  | none =>
      refine ⟨?_, rfl, rfl, fun _ => rfl⟩
      intro d hd
      cases hd

end PromptEngVsDspy
